import Mathlib

/-!
# speedtest-exporter: the cached exporter (`src/exporter.go`)

A shallow embedding of `Exporter` and its methods `NewExporter`, `Describe`,
`Collect`, `Refresh`, `Ready` and `runSpeedtest`.

Modelling conventions.

* The mutex `mu` is left out: the model is sequential, every method runs to its
  end before the next one starts. `ready` (an `atomic.Bool`) is a `Bool`.
* Go `error` values are carried by their message (`String`); a `nil` error is
  `none`, and a `(value, error)` result is an `Except String value`.
  `fmt.Errorf("...: %w", err)` is the concatenation of the text and the
  message of the wrapped error.
* `float64` values are carried as rationals. The exporter performs no
  arithmetic on them: it only stores the constants `1.0` and `0.0`, the
  elapsed time, and the measured values.
* A `*prometheus.Metric` is an `Option Metric` (`none` is the nil pointer).
* What the outside world answers during one `Refresh` (the uuid generator, the
  clock and the speedtest client) is an explicit argument, `Cycle`.
-/

namespace SpeedtestExporter

/-! ## The prometheus values the exporter builds -/

/-- The constant `namespace` of `exporter.go`. -/
def metricNamespace : String := "speedtest"

/-- The function `prometheus.BuildFQName`: the non-empty parts joined by `_`. -/
def BuildFQName (ns subsystem name : String) : String :=
  if name = "" then ""
  else if ns ≠ "" ∧ subsystem ≠ "" then ns ++ "_" ++ subsystem ++ "_" ++ name
  else if ns ≠ "" then ns ++ "_" ++ name
  else if subsystem ≠ "" then subsystem ++ "_" ++ name
  else name

/-- A `*prometheus.Desc`: fully qualified name, help text, variable labels
(the constant labels are `nil` in every descriptor of the exporter). -/
structure Desc where
  fqName : String
  help : String
  variableLabels : List String
deriving DecidableEq, Repr

/-- The function `prometheus.NewDesc` with `nil` constant labels. -/
def NewDesc (fqName help : String) (variableLabels : List String) : Desc :=
  { fqName := fqName, help := help, variableLabels := variableLabels }

/-- The label schema shared by the four measurement descriptors. -/
def measurementLabels : List String :=
  ["test_uuid", "user_lat", "user_lon", "user_ip", "user_isp", "server_lat",
   "server_lon", "server_id", "server_name", "server_country", "distance"]

/-- Descriptor `up`. -/
def up : Desc :=
  NewDesc (BuildFQName metricNamespace "" "up")
    "Was the last speedtest successful." ["test_uuid"]

/-- Descriptor `scrapeDurationSeconds`. -/
def scrapeDurationSeconds : Desc :=
  NewDesc (BuildFQName metricNamespace "" "scrape_duration_seconds")
    "Time to preform last speed test" ["test_uuid"]

/-- Descriptor `latency`. -/
def latency : Desc :=
  NewDesc (BuildFQName metricNamespace "" "latency_milliseconds")
    "Measured latency on last speed test in milliseconds" measurementLabels

/-- Descriptor `jitter`. -/
def jitter : Desc :=
  NewDesc (BuildFQName metricNamespace "" "jitter_milliseconds")
    "Measured jitter on last speed test in milliseconds" measurementLabels

/-- Descriptor `upload`. -/
def upload : Desc :=
  NewDesc (BuildFQName metricNamespace "" "upload_speed_bytes_per_second")
    "Last upload speedtest result" measurementLabels

/-- Descriptor `download`. -/
def download : Desc :=
  NewDesc (BuildFQName metricNamespace "" "download_speed_bytes_per_second")
    "Last download speedtest result" measurementLabels

/-- The value types of prometheus; the exporter only uses `GaugeValue`. -/
inductive ValueType where
  | CounterValue
  | GaugeValue
  | UntypedValue
deriving DecidableEq, Repr

/-- A constant `prometheus.Metric`: what `MustNewConstMetric` was given. -/
structure Metric where
  desc : Desc
  valueType : ValueType
  value : ℚ
  labelValues : List String
deriving DecidableEq

/-- The function `prometheus.MustNewConstMetric`. Every call of the exporter
passes as many label values as the descriptor has variable labels. -/
def MustNewConstMetric (desc : Desc) (valueType : ValueType) (value : ℚ)
    (labelValues : List String) : Metric :=
  { desc := desc, valueType := valueType, value := value, labelValues := labelValues }

/-! ## Formatting -/

/-- Go `fmt.Sprintf("%d", n)`. -/
def Sprintf_d (n : Int) : String := toString n

/-- Go `fmt.Sprintf("%f", x)`: fixed notation with six decimals, the last one
rounded half to even. -/
def Sprintf_f (x : ℚ) : String :=
  let a : ℚ := if x < 0 then -x else x
  let scaled : ℚ := a * 1000000
  let fl : Int := scaled.floor
  let frac : ℚ := scaled - fl
  let r : Int :=
    if frac < 1 / 2 then fl
    else if 1 / 2 < frac then fl + 1
    else if fl % 2 = 0 then fl else fl + 1
  let digits : String := toString (r % 1000000).toNat
  (if x < 0 then "-" else "") ++ toString (r / 1000000) ++ "." ++
    String.mk (List.replicate (6 - digits.length) '0') ++ digits

/-! ## The speedtest client -/

/-- The fields of `speedtest.User` the exporter reads. -/
structure User where
  Lat : String
  Lon : String
  IP : String
  Isp : String
deriving DecidableEq

/-- The fields of `speedtest.Server` the exporter reads. `Latency` and
`Jitter` are `time.Duration` values (nanoseconds). -/
structure Server where
  ID : String
  Name : String
  Country : String
  Lat : String
  Lon : String
  Distance : ℚ
  Latency : Int
  Jitter : Int
  DLSpeed : ℚ
  ULSpeed : ℚ
deriving DecidableEq

/-- Go `time.Duration.Milliseconds`: integer division truncating toward zero. -/
def Milliseconds (d : Int) : Int := Int.tdiv d 1000000

/-- What the speedtest client answers during one cycle. `FindServer` is the
lookup `Servers.FindServer` of the speedtest library, `TestAll` returns the
server with its measurement fields filled in. -/
structure Client where
  FetchUserInfoContext : Except String User
  FetchServerListContext : Except String (List Server)
  FindServer : List Server → List Int → Except String (List Server)
  TestAll : Server → Except String Server

/-! ## The exporter -/

/-- The struct `cachedMetrics`. -/
structure cachedMetrics where
  testUUID : String
  duration : ℚ
  success : Bool
  latencyData : Option Metric
  jitterData : Option Metric
  uploadData : Option Metric
  downloadData : Option Metric
deriving DecidableEq

/-- The struct `Exporter` without its mutex. -/
structure Exporter where
  serverID : Int
  serverFallback : Bool
  cache : cachedMetrics
  ready : Bool
deriving DecidableEq

/-- The zero value of `cachedMetrics`. -/
def cachedMetrics.zero : cachedMetrics :=
  { testUUID := "", duration := 0, success := false, latencyData := none,
    jitterData := none, uploadData := none, downloadData := none }

/-- The function `NewExporter`: the fields not named are zero values, the
error is always `nil`. -/
def NewExporter (serverID : Int) (serverFallback : Bool) : Exporter × Option String :=
  ({ serverID := serverID, serverFallback := serverFallback,
     cache := cachedMetrics.zero, ready := false }, none)

/-- The method `Describe`: the descriptors sent on the channel, in order. -/
def Describe (_e : Exporter) : List Desc :=
  [up, scrapeDurationSeconds, latency, jitter, upload, download]

/-- The method `Collect`: the metrics sent on the channel, in order. -/
def Collect (e : Exporter) : List Metric :=
  if !e.ready then
    []
  else if e.cache.success then
    [MustNewConstMetric up ValueType.GaugeValue 1 [e.cache.testUUID],
     MustNewConstMetric scrapeDurationSeconds ValueType.GaugeValue e.cache.duration
       [e.cache.testUUID]]
      ++ (match e.cache.latencyData with
          | some m => [m]
          | none => [])
      ++ (match e.cache.jitterData with
          | some m => [m]
          | none => [])
      ++ (match e.cache.uploadData with
          | some m => [m]
          | none => [])
      ++ (match e.cache.downloadData with
          | some m => [m]
          | none => [])
  else
    [MustNewConstMetric up ValueType.GaugeValue 0 [e.cache.testUUID]]

/-- The method `Ready`. -/
def Ready (e : Exporter) : Bool := e.ready

/-- The four out-parameters of `runSpeedtest`. -/
structure MetricPtrs where
  latencyMetric : Option Metric
  jitterMetric : Option Metric
  uploadMetric : Option Metric
  downloadMetric : Option Metric
deriving DecidableEq

/-- The error of `runSpeedtest` when the configured server is not found and
`serverFallback` is not set. -/
def serverNotFoundError (serverID : Int) : String :=
  "could not find chosen server ID " ++ Sprintf_d serverID ++
    " in the list of available servers, server_fallback is not set"

/-- The server selection of `runSpeedtest` (the statement that assigns
`server`, between the fetch of the server list and `TestAll`). -/
def selectServer (e : Exporter)
    (findServer : List Server → List Int → Except String (List Server))
    (serverList : List Server) : Except String Server :=
  if e.serverID = -1 then
    match serverList with
    | [] => Except.error "no servers available"
    | first :: _ => Except.ok first
  else
    match findServer serverList [e.serverID] with
    | Except.error err => Except.error ("error finding server: " ++ err)
    | Except.ok servers =>
      let notFound : Except String Server :=
        if !e.serverFallback then
          Except.error (serverNotFoundError e.serverID)
        else
          match serverList with
          | [] => Except.error "no servers available for fallback"
          | first :: _ => Except.ok first
      match servers with
      | [] => notFound
      | found :: _ =>
        if found.ID ≠ Sprintf_d e.serverID then notFound else Except.ok found

/-- The label values of the four measurement gauges. -/
def measurementLabelValues (testUUID : String) (user : User) (server : Server) :
    List String :=
  [testUUID, user.Lat, user.Lon, user.IP, user.Isp, server.Lat, server.Lon,
   server.ID, server.Name, server.Country, Sprintf_f server.Distance]

/-- The method `runSpeedtest`: the error returned and the out-parameters as
they are when it returns. -/
def runSpeedtest (e : Exporter) (client : Client) (testUUID : String)
    (out : MetricPtrs) : Option String × MetricPtrs :=
  match client.FetchUserInfoContext with
  | Except.error err => (some ("could not fetch user information: " ++ err), out)
  | Except.ok user =>
    match client.FetchServerListContext with
    | Except.error err => (some ("could not fetch server list: " ++ err), out)
    | Except.ok serverList =>
      match selectServer e client.FindServer serverList with
      | Except.error err => (some err, out)
      | Except.ok selected =>
        match client.TestAll selected with
        | Except.error err => (some ("speedtest failed: " ++ err), out)
        | Except.ok server =>
          let labels := measurementLabelValues testUUID user server
          let latencyMetricValue := MustNewConstMetric latency ValueType.GaugeValue
            (Milliseconds server.Latency : ℚ) labels
          let out := { out with latencyMetric := some latencyMetricValue }
          let jitterMetricValue := MustNewConstMetric jitter ValueType.GaugeValue
            (Milliseconds server.Jitter : ℚ) labels
          let out := { out with jitterMetric := some jitterMetricValue }
          let downloadMetricValue := MustNewConstMetric download ValueType.GaugeValue
            server.DLSpeed labels
          let out := { out with downloadMetric := some downloadMetricValue }
          let uploadMetricValue := MustNewConstMetric upload ValueType.GaugeValue
            server.ULSpeed labels
          let out := { out with uploadMetric := some uploadMetricValue }
          (none, out)

/-- What the outside world answers during one `Refresh`: the string of
`uuid.New()`, the client, and the seconds `time.Since(start)` reports. -/
structure Cycle where
  uuid : String
  client : Client
  elapsed : ℚ

/-- The method `Refresh`: the exporter afterwards and the error returned. -/
def Refresh (e : Exporter) (cy : Cycle) : Exporter × Option String :=
  let testUUID := cy.uuid
  match runSpeedtest e cy.client testUUID
      { latencyMetric := none, jitterMetric := none, uploadMetric := none,
        downloadMetric := none } with
  | (some err, _) => (e, some err)
  | (none, out) =>
    let cache : cachedMetrics :=
      { testUUID := testUUID, duration := cy.elapsed, success := true,
        latencyData := out.latencyMetric, jitterData := out.jitterMetric,
        uploadData := out.uploadMetric, downloadData := out.downloadMetric }
    ({ e with cache := cache, ready := true }, none)

/-! ## The lookup of the speedtest library

`runSpeedtest` hands the server list to `Servers.FindServer` of the
speedtest-go library, which is not part of this repository. The theorems on
server selection take the lookup as an argument and state what they need of
it. The definitions below follow the behaviour of the library (release
1.7.10): the ids of the servers are read by `strconv.Atoi`, whose error is
dropped, and compared as numbers with the id asked for; when no server is
found the answer is the server of lowest positive latency; an empty list is
an error. They serve to evaluate the exporter on concrete inputs. -/

/-- The two kinds of error of the Go package `strconv`. -/
inductive NumError where
  | ErrSyntax
  | ErrRange
deriving DecidableEq, Repr

/-- The loop of Go `strconv.ParseUint(s, 10, 64)`: the characters are read
from the left, and the first one that is no digit, or that takes the number
past 64 bits, ends the loop. -/
def parseUintLoop : List Char → Nat → Nat × Option NumError
  | [], n => (n, none)
  | c :: cs, n =>
    if ¬ c.isDigit then (0, some NumError.ErrSyntax)
    else if 1844674407370955162 ≤ n then (18446744073709551615, some NumError.ErrRange)
    else if 18446744073709551615 < n * 10 + (c.toNat - 48) then
      (18446744073709551615, some NumError.ErrRange)
    else parseUintLoop cs (n * 10 + (c.toNat - 48))

/-- Go `strconv.ParseUint(s, 10, 64)`: the value and the error. -/
def ParseUint (s : List Char) : Nat × Option NumError :=
  if s = [] then (0, some NumError.ErrSyntax) else parseUintLoop s 0

/-- Go `strconv.ParseInt(s, 10, 0)` with a 64-bit `int`: the value and the
error. A syntax error gives 0, a range error the nearest bound. -/
def ParseInt (s : List Char) : Int × Option NumError :=
  match s with
  | [] => (0, some NumError.ErrSyntax)
  | c :: cs =>
    let neg : Bool := decide (c = '-')
    let digits : List Char := if c = '+' ∨ c = '-' then cs else c :: cs
    match ParseUint digits with
    | (_, some NumError.ErrSyntax) => (0, some NumError.ErrSyntax)
    | (un, err) =>
      if ¬ neg ∧ 9223372036854775808 ≤ un then
        (9223372036854775807, some NumError.ErrRange)
      else if neg ∧ 9223372036854775808 < un then
        (-9223372036854775808, some NumError.ErrRange)
      else (if neg then -(un : Int) else (un : Int), err)

/-- Go `strconv.Atoi`: the value and the error. -/
def Atoi (s : String) : Int × Option NumError := ParseInt s.toList

/-- The choice `Servers.FindServer` makes when no server has an id asked for:
the server of lowest positive latency (in milliseconds), the first of the
list when no server has a positive latency. -/
def lowestLatency (first : Server) (servers : List Server) : Server :=
  (servers.foldl
    (fun (acc : Int × Server) (s : Server) =>
      if s.Latency ≤ 0 then acc
      else if Milliseconds s.Latency < acc.1 then (Milliseconds s.Latency, s)
      else acc)
    ((9223372036854775807 : Int), first)).2

/-- The lookup `Servers.FindServer` of the speedtest library: for each id
asked for, the first server of the list whose id reads as that number; the
server of lowest positive latency when none is found; an error on an empty
list. -/
def Servers.FindServer (servers : List Server) (serverID : List Int) :
    Except String (List Server) :=
  match servers with
  | [] => Except.error "no server available or found"
  | first :: _ =>
    let retServer := serverID.filterMap fun sid =>
      servers.find? fun s => decide ((Atoi s.ID).1 = sid)
    if retServer.length = 0 then Except.ok [lowestLatency first servers]
    else Except.ok retServer

/-- The lookup contract server selection relies on when a server of the list
carries the configured number: the first server of the list whose id reads,
by `strconv.Atoi`, as the number asked for comes first in the answer. -/
def FindsNumeric (findServer : List Server → List Int → Except String (List Server))
    (serverList : List Server) (serverID : Int) : Prop :=
  ∀ m, serverList.find? (fun s => decide ((Atoi s.ID).1 = serverID)) = some m →
    ∃ rest, findServer serverList [serverID] = Except.ok (m :: rest)

/-- The lookup contract server selection relies on when the configured id is
not in a non-empty list: the lookup answers without error and every server it
answers is one of the list. -/
def FindsWithin (findServer : List Server → List Int → Except String (List Server))
    (serverList : List Server) (serverID : Int) : Prop :=
  ∃ servers, findServer serverList [serverID] = Except.ok servers ∧
    ∀ s ∈ servers, s ∈ serverList

/-! ## Cycles, operations and reachable states -/

/-- One of the four steps of a cycle fails: the requester-info fetch, the
server-list fetch, the server selection or the measurement. -/
def CycleFails (e : Exporter) (cy : Cycle) : Prop :=
  (∃ err, cy.client.FetchUserInfoContext = Except.error err) ∨
  (∃ err, cy.client.FetchServerListContext = Except.error err) ∨
  (∃ serverList err, cy.client.FetchServerListContext = Except.ok serverList ∧
    selectServer e cy.client.FindServer serverList = Except.error err) ∨
  (∃ serverList selected err, cy.client.FetchServerListContext = Except.ok serverList ∧
    selectServer e cy.client.FindServer serverList = Except.ok selected ∧
    cy.client.TestAll selected = Except.error err)

/-- The operations of an exporter. `Collect`, `Describe` and `Ready` only
read the exporter. -/
inductive Op where
  | refresh (cy : Cycle)
  | collect
  | describe
  | ready

/-- The exporter after an operation. -/
def applyOp (e : Exporter) : Op → Exporter
  | Op.refresh cy => (Refresh e cy).1
  | Op.collect => e
  | Op.describe => e
  | Op.ready => e

/-- The states an exporter built by `NewExporter` reaches by `Refresh` calls. -/
inductive Reachable : Exporter → Prop where
  | init (serverID : Int) (serverFallback : Bool) :
      Reachable (NewExporter serverID serverFallback).1
  | refresh (e : Exporter) (cy : Cycle) : Reachable e → Reachable (Refresh e cy).1

/-- A cache that holds a success with all four measurement gauges, each of
its own descriptor. -/
def CacheComplete (c : cachedMetrics) : Prop :=
  c.success = true ∧
  ∃ l j u d, c.latencyData = some l ∧ c.jitterData = some j ∧ c.uploadData = some u ∧
    c.downloadData = some d ∧
    l.desc = latency ∧ j.desc = jitter ∧ u.desc = upload ∧ d.desc = download

/-! ## Concrete inputs -/

/-- A server of the directory with the given id and name, not yet measured. -/
def sampleServer (id name : String) : Server :=
  { ID := id, Name := name, Country := "NP", Lat := "27.7172", Lon := "85.3240",
    Distance := 25 / 2, Latency := 0, Jitter := 0, DLSpeed := 0, ULSpeed := 0 }

/-- A requester. -/
def sampleUser : User :=
  { Lat := "27.70", Lon := "85.32", IP := "203.0.113.7", Isp := "Example Net" }

/-- A measurement that succeeds with fixed values. -/
def sampleTestAll (s : Server) : Except String Server :=
  Except.ok { s with Latency := 23456789, Jitter := 1234567, DLSpeed := 1250000,
                     ULSpeed := 625000 }

/-- A client for which every step succeeds. -/
def goodClient : Client :=
  { FetchUserInfoContext := Except.ok sampleUser,
    FetchServerListContext := Except.ok [sampleServer "5" "alpha", sampleServer "9" "beta"],
    FindServer := Servers.FindServer,
    TestAll := sampleTestAll }

/-- A cycle in which every step succeeds. -/
def goodCycle : Cycle :=
  { uuid := "11111111-1111-4111-8111-111111111111", client := goodClient, elapsed := 21 / 2 }

/-- A cycle whose requester-info fetch fails. -/
def userFailCycle : Cycle :=
  { uuid := "22222222-2222-4222-8222-222222222222",
    client := { goodClient with FetchUserInfoContext := Except.error "context deadline exceeded" },
    elapsed := 3 }

/-- A cycle whose measurement fails. -/
def measureFailCycle : Cycle :=
  { uuid := "33333333-3333-4333-8333-333333333333",
    client := { goodClient with TestAll := fun _ => Except.error "connection reset" },
    elapsed := 7 }

/-- The exporter after a failing cycle, a successful one and a failing one. -/
def sampleRun : Exporter :=
  (Refresh (Refresh (Refresh (NewExporter 9 true).1 userFailCycle).1 goodCycle).1
    measureFailCycle).1

/-! ## Server selection -/

/-- The server of lowest positive latency is the first server given or one
of the list. -/
theorem lowestLatency_mem (first : Server) (servers : List Server) :
    lowestLatency first servers = first ∨ lowestLatency first servers ∈ servers := by
  have hgen : ∀ (l : List Server) (acc : Int × Server),
      (l.foldl
        (fun (acc : Int × Server) (s : Server) =>
          if s.Latency ≤ 0 then acc
          else if Milliseconds s.Latency < acc.1 then (Milliseconds s.Latency, s)
          else acc) acc).2 = acc.2 ∨
      (l.foldl
        (fun (acc : Int × Server) (s : Server) =>
          if s.Latency ≤ 0 then acc
          else if Milliseconds s.Latency < acc.1 then (Milliseconds s.Latency, s)
          else acc) acc).2 ∈ l := by
    intro l
    induction l with
    | nil => intro acc; exact Or.inl rfl
    | cons c tl ih =>
      intro acc
      rw [List.foldl_cons]
      by_cases h1 : c.Latency ≤ 0
      · rw [if_pos h1]
        rcases ih acc with h | h
        · exact Or.inl h
        · exact Or.inr (List.mem_cons_of_mem _ h)
      · rw [if_neg h1]
        by_cases h2 : Milliseconds c.Latency < acc.1
        · rw [if_pos h2]
          rcases ih (Milliseconds c.Latency, c) with h | h
          · right
            rw [h]
            exact List.mem_cons_self _ _
          · exact Or.inr (List.mem_cons_of_mem _ h)
        · rw [if_neg h2]
          rcases ih acc with h | h
          · exact Or.inl h
          · exact Or.inr (List.mem_cons_of_mem _ h)
  exact hgen servers _

/-- The lookup of the library honours `FindsWithin` on every non-empty list. -/
theorem FindServer_within (serverList : List Server) (serverID : Int)
    (hne : serverList ≠ []) : FindsWithin Servers.FindServer serverList serverID := by
  cases serverList with
  | nil => exact absurd rfl hne
  | cons first rest =>
    unfold FindsWithin Servers.FindServer
    cases hfind : (first :: rest).find? (fun s => decide ((Atoi s.ID).1 = serverID)) with
    | none =>
      refine ⟨[lowestLatency first (first :: rest)], ?_, ?_⟩
      · simp [hfind]
      · intro s hs
        rw [List.mem_singleton] at hs
        rw [hs]
        rcases lowestLatency_mem first (first :: rest) with h | h
        · rw [h]
          exact List.mem_cons_self _ _
        · exact h
    | some m =>
      refine ⟨[m], ?_, ?_⟩
      · simp [hfind]
      · intro s hs
        rw [List.mem_singleton] at hs
        rw [hs]
        exact List.mem_of_find?_eq_some hfind

/-- The lookup of the library honours `FindsNumeric` on every list. -/
theorem FindServer_numeric (serverList : List Server) (serverID : Int) :
    FindsNumeric Servers.FindServer serverList serverID := by
  intro m hm
  cases serverList with
  | nil => simp at hm
  | cons first rest =>
    refine ⟨[], ?_⟩
    unfold Servers.FindServer
    simp [hm]

/-- With the preference "closest" the lookup is not consulted. -/
theorem selectServer_closest_eq (e : Exporter)
    (f g : List Server → List Int → Except String (List Server))
    (serverList : List Server) (hid : e.serverID = -1) :
    selectServer e f serverList = selectServer e g serverList := by
  simp [selectServer, hid]

/-- Without fallback, a specific id over an empty list never fails with
"no servers available", whatever the lookup answers. -/
theorem selectServer_empty_specific_no_fallback (e : Exporter)
    (findServer : List Server → List Int → Except String (List Server))
    (hid : e.serverID ≠ -1) (hfb : e.serverFallback = false) :
    selectServer e findServer [] ≠ Except.error "no servers available" := by
  have hpre : ∀ t : String, "error finding server: " ++ t ≠ "no servers available" := by
    intro t h
    have h2 := congrArg String.data h
    simp only [String.data_append] at h2
    have h3 := congrArg (fun l => l.take 2) h2
    simp at h3
  have hnf : serverNotFoundError e.serverID ≠ "no servers available" := by
    intro h
    have h2 := congrArg String.data h
    simp only [serverNotFoundError, String.data_append] at h2
    have h3 := congrArg (fun l => l.take 2) h2
    simp at h3
  unfold selectServer
  rw [if_neg hid]
  cases hfind : findServer [] [e.serverID] with
  | error err =>
    simp only []
    intro h
    injection h with h
    exact hpre err h
  | ok servers =>
    cases servers with
    | nil =>
      intro h
      simp only [hfb, Bool.not_false, if_true] at h
      injection h with h
      exact hnf h
    | cons found rest =>
      intro h
      simp only [hfb, Bool.not_false, if_true] at h
      split at h
      · injection h with h
        exact hnf h
      · cases h

/-- C7: with the preference "closest" (`serverID = -1`), selection over a
non-empty server list returns the first element of the list, whatever
`serverFallback` is and whatever the lookup would answer. -/
theorem selectServer_closest (e : Exporter)
    (findServer : List Server → List Int → Except String (List Server))
    (serverList : List Server) (hne : serverList ≠ []) (hid : e.serverID = -1) :
    selectServer e findServer serverList = Except.ok (serverList.head hne) := by
  cases serverList with
  | nil => exact absurd rfl hne
  | cons first rest => simp [selectServer, hid]

/-- C7 at `[E1, E2, E3]` with the preference "closest", for both values of
`serverFallback`: `E1` is selected. -/
theorem selectServer_closest_witness :
    selectServer (NewExporter (-1) false).1 Servers.FindServer
        [sampleServer "5" "alpha", sampleServer "9" "beta", sampleServer "12" "gamma"]
      = Except.ok (sampleServer "5" "alpha") ∧
    selectServer (NewExporter (-1) true).1 Servers.FindServer
        [sampleServer "5" "alpha", sampleServer "9" "beta", sampleServer "12" "gamma"]
      = Except.ok (sampleServer "5" "alpha") :=
  ⟨selectServer_closest _ _ _ (List.cons_ne_nil _ _) rfl,
   selectServer_closest _ _ _ (List.cons_ne_nil _ _) rfl⟩

/-- C6 as stated fails: the list `[E1(id="09"), E2(id="9")]` contains a server
whose id is exactly the configured id 9, yet the lookup answers `E1`, whose id
reads as 9, and selection, which compares the id of that answer with "9",
fails with the server-not-found error without fallback and returns `E1`, whose
id is not "9", with fallback. -/
theorem selectServer_configured_found_counterexample :
    sampleServer "9" "beta" ∈ [sampleServer "09" "alpha", sampleServer "9" "beta"] ∧
    (sampleServer "9" "beta").ID = Sprintf_d (NewExporter 9 false).1.serverID ∧
    selectServer (NewExporter 9 false).1 Servers.FindServer
        [sampleServer "09" "alpha", sampleServer "9" "beta"]
      = Except.error
          "could not find chosen server ID 9 in the list of available servers, server_fallback is not set" ∧
    selectServer (NewExporter 9 true).1 Servers.FindServer
        [sampleServer "09" "alpha", sampleServer "9" "beta"]
      = Except.ok (sampleServer "09" "alpha") ∧
    ¬ ((sampleServer "09" "alpha").ID = Sprintf_d (NewExporter 9 true).1.serverID) := by
  refine ⟨?_, rfl, rfl, rfl, ?_⟩
  · simp
  · decide

/-- C6 (amended): let `m` be the first server of the list whose id reads, by
`strconv.Atoi`, as the configured specific id, and let the lookup answer it
first (`FindsNumeric`, as the library does). When the id of `m` is exactly the
decimal numeral of the configured id, selection succeeds for every
`serverFallback` and returns `m`. When the id of `m` is another spelling of
the number, selection takes the configured server as not found, even if a
later server has exactly the configured id: it fails with the
server-not-found error when `serverFallback` is not set and returns the first
element of the list when it is. -/
theorem selectServer_configured_numeric (e : Exporter)
    (findServer : List Server → List Int → Except String (List Server))
    (serverList : List Server) (m : Server)
    (hid : e.serverID ≠ -1)
    (hfirst : serverList.find? (fun s => decide ((Atoi s.ID).1 = e.serverID)) = some m)
    (hlookup : FindsNumeric findServer serverList e.serverID) :
    (m.ID = Sprintf_d e.serverID →
      selectServer e findServer serverList = Except.ok m) ∧
    (m.ID ≠ Sprintf_d e.serverID → e.serverFallback = false →
      selectServer e findServer serverList = Except.error
        ("could not find chosen server ID " ++ Sprintf_d e.serverID ++
          " in the list of available servers, server_fallback is not set")) ∧
    (m.ID ≠ Sprintf_d e.serverID → e.serverFallback = true →
      ∃ first, serverList.head? = some first ∧
        selectServer e findServer serverList = Except.ok first) := by
  obtain ⟨rest, hrest⟩ := hlookup m hfirst
  refine ⟨?_, ?_, ?_⟩
  · intro hm
    unfold selectServer
    rw [if_neg hid, hrest]
    simp [hm]
  · intro hm hfb
    unfold selectServer
    rw [if_neg hid, hrest]
    simp [hm, hfb, serverNotFoundError]
  · intro hm hfb
    cases serverList with
    | nil => simp at hfirst
    | cons first tl =>
      refine ⟨first, rfl, ?_⟩
      unfold selectServer
      rw [if_neg hid, hrest]
      simp [hm, hfb]

/-- C6 (amended) at `[E1(id="5"), E2(id="9")]` with configured id 9 and no
fallback, where `E2` is selected, and at `[E1(id="09"), E2(id="9")]`, where
the configured server is taken as not found. -/
theorem selectServer_configured_numeric_witness :
    selectServer (NewExporter 9 false).1 Servers.FindServer
        [sampleServer "5" "alpha", sampleServer "9" "beta"]
      = Except.ok (sampleServer "9" "beta") ∧
    selectServer (NewExporter 9 false).1 Servers.FindServer
        [sampleServer "09" "alpha", sampleServer "9" "beta"]
      = Except.error
          "could not find chosen server ID 9 in the list of available servers, server_fallback is not set" ∧
    (∃ first, [sampleServer "09" "alpha", sampleServer "9" "beta"].head? = some first ∧
      selectServer (NewExporter 9 true).1 Servers.FindServer
        [sampleServer "09" "alpha", sampleServer "9" "beta"] = Except.ok first) :=
  ⟨(selectServer_configured_numeric (NewExporter 9 false).1 Servers.FindServer
      [sampleServer "5" "alpha", sampleServer "9" "beta"] (sampleServer "9" "beta")
      (by decide) rfl (FindServer_numeric _ _)).1 rfl,
   (selectServer_configured_numeric (NewExporter 9 false).1 Servers.FindServer
      [sampleServer "09" "alpha", sampleServer "9" "beta"] (sampleServer "09" "alpha")
      (by decide) rfl (FindServer_numeric _ _)).2.1 (by decide) rfl,
   (selectServer_configured_numeric (NewExporter 9 true).1 Servers.FindServer
      [sampleServer "09" "alpha", sampleServer "9" "beta"] (sampleServer "09" "alpha")
      (by decide) rfl (FindServer_numeric _ _)).2.2 (by decide) rfl⟩

/-- C4: over a non-empty server list in which no server has the configured
specific id, with a lookup that honours `FindsWithin`, selection returns the
first element of the list when `serverFallback` is set, and otherwise fails
with the server-not-found error, whose text holds the requested id. -/
theorem selectServer_configured_absent (e : Exporter)
    (findServer : List Server → List Int → Except String (List Server))
    (serverList : List Server) (hne : serverList ≠ [])
    (hid : e.serverID ≠ -1)
    (habsent : ∀ s ∈ serverList, s.ID ≠ Sprintf_d e.serverID)
    (hlookup : FindsWithin findServer serverList e.serverID) :
    (e.serverFallback = true →
      selectServer e findServer serverList = Except.ok (serverList.head hne)) ∧
    (e.serverFallback = false →
      selectServer e findServer serverList = Except.error
        ("could not find chosen server ID " ++ Sprintf_d e.serverID ++
          " in the list of available servers, server_fallback is not set")) := by
  obtain ⟨servers, hfind, hwithin⟩ := hlookup
  cases serverList with
  | nil => exact absurd rfl hne
  | cons first rest =>
    have hhead : ∀ found tl, servers = found :: tl → found.ID ≠ Sprintf_d e.serverID := by
      intro found tl hs
      exact habsent found (hwithin found (by simp [hs]))
    constructor
    · intro hfb
      unfold selectServer
      rw [if_neg hid, hfind]
      cases servers with
      | nil => simp [hfb]
      | cons found tl => simp [hfb, hhead found tl rfl]
    · intro hfb
      unfold selectServer
      rw [if_neg hid, hfind]
      cases servers with
      | nil => simp [hfb, serverNotFoundError]
      | cons found tl => simp [hfb, hhead found tl rfl, serverNotFoundError]

/-- C4 at `[E1(id=5)]` with configured id 9: `E1` with fallback, the
server-not-found error naming 9 without. -/
theorem selectServer_configured_absent_witness :
    selectServer (NewExporter 9 true).1 Servers.FindServer [sampleServer "5" "alpha"]
      = Except.ok (sampleServer "5" "alpha") ∧
    selectServer (NewExporter 9 false).1 Servers.FindServer [sampleServer "5" "alpha"]
      = Except.error
          "could not find chosen server ID 9 in the list of available servers, server_fallback is not set" :=
  ⟨(selectServer_configured_absent (NewExporter 9 true).1 Servers.FindServer
      [sampleServer "5" "alpha"] (List.cons_ne_nil _ _) (by decide)
      (by intro s hs; rw [List.mem_singleton] at hs; subst hs; decide)
      ⟨[sampleServer "5" "alpha"], rfl, fun _ h => h⟩).1 rfl,
   (selectServer_configured_absent (NewExporter 9 false).1 Servers.FindServer
      [sampleServer "5" "alpha"] (List.cons_ne_nil _ _) (by decide)
      (by intro s hs; rw [List.mem_singleton] at hs; subst hs; decide)
      ⟨[sampleServer "5" "alpha"], rfl, fun _ h => h⟩).2 rfl⟩

/-- C5 as stated fails: with the specific id 9 and no fallback, selection over
the empty list fails with the lookup error when the lookup reports one, and
with the server-not-found error when the lookup answers no server; whatever
the lookup answers, it does not fail with "no servers available". -/
theorem selectServer_empty_counterexample :
    selectServer (NewExporter 9 false).1 Servers.FindServer []
      = Except.error "error finding server: no server available or found" ∧
    selectServer (NewExporter 9 false).1 (fun _ _ => Except.ok []) []
      = Except.error
          "could not find chosen server ID 9 in the list of available servers, server_fallback is not set" ∧
    ¬ (selectServer (NewExporter 9 false).1 Servers.FindServer []
        = Except.error "no servers available") ∧
    ¬ (selectServer (NewExporter 9 false).1 (fun _ _ => Except.ok []) []
        = Except.error "no servers available") ∧
    (∀ findServer : List Server → List Int → Except String (List Server),
      ¬ (selectServer (NewExporter 9 false).1 findServer []
          = Except.error "no servers available")) :=
  ⟨rfl, rfl,
   selectServer_empty_specific_no_fallback _ _ (by decide) rfl,
   selectServer_empty_specific_no_fallback _ _ (by decide) rfl,
   fun findServer => selectServer_empty_specific_no_fallback _ findServer (by decide) rfl⟩

/-- C5 (amended): over the empty server list, the preference "closest" fails
with "no servers available" for every `serverFallback`; a specific id is
handed to the lookup first: an error of the lookup is returned as "error
finding server: ...", and when the lookup answers no server selection fails
with the server-not-found error if `serverFallback` is not set and with "no
servers available for fallback" if it is. -/
theorem selectServer_empty (e : Exporter)
    (findServer : List Server → List Int → Except String (List Server)) :
    (e.serverID = -1 →
      selectServer e findServer [] = Except.error "no servers available") ∧
    (e.serverID ≠ -1 → ∀ err, findServer [] [e.serverID] = Except.error err →
      selectServer e findServer [] = Except.error ("error finding server: " ++ err)) ∧
    (e.serverID ≠ -1 → findServer [] [e.serverID] = Except.ok [] →
      e.serverFallback = false →
      selectServer e findServer [] = Except.error
        ("could not find chosen server ID " ++ Sprintf_d e.serverID ++
          " in the list of available servers, server_fallback is not set")) ∧
    (e.serverID ≠ -1 → findServer [] [e.serverID] = Except.ok [] →
      e.serverFallback = true →
      selectServer e findServer [] = Except.error "no servers available for fallback") := by
  refine ⟨?_, ?_, ?_, ?_⟩
  · intro hid
    simp [selectServer, hid]
  · intro hid err hfind
    unfold selectServer
    rw [if_neg hid, hfind]
  · intro hid hfind hfb
    unfold selectServer
    rw [if_neg hid, hfind]
    simp [hfb, serverNotFoundError]
  · intro hid hfind hfb
    unfold selectServer
    rw [if_neg hid, hfind]
    simp [hfb]

/-- C5 (amended) at concrete inputs: "closest" with and without fallback, and
the specific id 9 with the lookup of the library and with a lookup that
answers no server. -/
theorem selectServer_empty_witness :
    selectServer (NewExporter (-1) false).1 Servers.FindServer []
      = Except.error "no servers available" ∧
    selectServer (NewExporter (-1) true).1 Servers.FindServer []
      = Except.error "no servers available" ∧
    selectServer (NewExporter 9 true).1 Servers.FindServer []
      = Except.error ("error finding server: " ++ "no server available or found") ∧
    selectServer (NewExporter 9 true).1 (fun _ _ => Except.ok []) []
      = Except.error "no servers available for fallback" :=
  ⟨(selectServer_empty _ _).1 rfl,
   (selectServer_empty _ _).1 rfl,
   (selectServer_empty (NewExporter 9 true).1 Servers.FindServer).2.1 (by decide) _ rfl,
   (selectServer_empty (NewExporter 9 true).1 (fun _ _ => Except.ok [])).2.2.2
     (by decide) rfl rfl⟩

/-! ## Collect -/

/-- The scrape-duration descriptor is not the descriptor `up`. -/
theorem up_ne_scrapeDurationSeconds : scrapeDurationSeconds ≠ up := by decide

/-- C3: `Collect` emits nothing when `ready` is false. When `ready` and
`cache.success` are true it emits the gauge `up = 1` labelled with the cached
test id and every cached measurement gauge (latency, jitter, upload,
download); every metric it emits is that gauge, the scrape-duration gauge or
a cached measurement gauge, so that no `up = 0` gauge is emitted unless the
cache itself holds one. When `ready` is true and `cache.success` is false it
emits exactly one metric, the gauge `up = 0` labelled with the cached test
id. -/
theorem Collect_emits (e : Exporter) :
    (e.ready = false → Collect e = []) ∧
    (e.ready = true → e.cache.success = true →
      MustNewConstMetric up ValueType.GaugeValue 1 [e.cache.testUUID] ∈ Collect e ∧
      (∀ m, (e.cache.latencyData = some m ∨ e.cache.jitterData = some m ∨
              e.cache.uploadData = some m ∨ e.cache.downloadData = some m) →
            m ∈ Collect e) ∧
      (∀ m ∈ Collect e,
        m = MustNewConstMetric up ValueType.GaugeValue 1 [e.cache.testUUID] ∨
        m = MustNewConstMetric scrapeDurationSeconds ValueType.GaugeValue
              e.cache.duration [e.cache.testUUID] ∨
        e.cache.latencyData = some m ∨ e.cache.jitterData = some m ∨
        e.cache.uploadData = some m ∨ e.cache.downloadData = some m) ∧
      ((∀ m, (e.cache.latencyData = some m ∨ e.cache.jitterData = some m ∨
               e.cache.uploadData = some m ∨ e.cache.downloadData = some m) →
             m.desc ≠ up) →
        ∀ m ∈ Collect e, ¬ (m.desc = up ∧ m.value = 0))) ∧
    (e.ready = true → e.cache.success = false →
      Collect e = [MustNewConstMetric up ValueType.GaugeValue 0 [e.cache.testUUID]]) := by
  refine ⟨?_, ?_, ?_⟩
  · intro hr
    simp [Collect, hr]
  · intro hr hs
    have hall : ∀ m ∈ Collect e,
        m = MustNewConstMetric up ValueType.GaugeValue 1 [e.cache.testUUID] ∨
        m = MustNewConstMetric scrapeDurationSeconds ValueType.GaugeValue
              e.cache.duration [e.cache.testUUID] ∨
        e.cache.latencyData = some m ∨ e.cache.jitterData = some m ∨
        e.cache.uploadData = some m ∨ e.cache.downloadData = some m := by
      intro m hm
      simp only [Collect, hr, hs, Bool.not_true, if_true, Bool.false_eq_true, if_false,
        List.mem_append, List.mem_cons, List.mem_singleton, List.not_mem_nil, or_false] at hm
      rcases hm with ((((h | h) | h) | h) | h) | h
      · exact Or.inl h
      · exact Or.inr (Or.inl h)
      · cases hl : e.cache.latencyData with
        | none => simp [hl] at h
        | some x => simp [hl] at h; simp [h]
      · cases hl : e.cache.jitterData with
        | none => simp [hl] at h
        | some x => simp [hl] at h; simp [h]
      · cases hl : e.cache.uploadData with
        | none => simp [hl] at h
        | some x => simp [hl] at h; simp [h]
      · cases hl : e.cache.downloadData with
        | none => simp [hl] at h
        | some x => simp [hl] at h; simp [h]
    refine ⟨?_, ?_, hall, ?_⟩
    · simp [Collect, hr, hs]
    · intro m hm
      simp only [Collect, hr, hs, Bool.not_true, if_true, Bool.false_eq_true, if_false,
        List.mem_append, List.mem_cons, List.mem_singleton, List.not_mem_nil, or_false]
      rcases hm with h | h | h | h
      · simp [h]
      · simp [h]
      · simp [h]
      · simp [h]
    · intro hdesc m hm hbad
      rcases hall m hm with h | h | h
      · rw [h] at hbad
        simp [MustNewConstMetric] at hbad
      · rw [h] at hbad
        exact up_ne_scrapeDurationSeconds (by simpa [MustNewConstMetric] using hbad.1)
      · exact hdesc m h hbad.1
  · intro hr hs
    simp [Collect, hr, hs]

/-- C3 at three concrete states: a fresh exporter, a ready one holding a
success with two of the gauges, and a ready one holding a failure. -/
theorem Collect_emits_witness :
    Collect (NewExporter (-1) false).1 = [] ∧
    MustNewConstMetric up ValueType.GaugeValue 1 ["t-1"] ∈
      Collect { serverID := -1, serverFallback := false, ready := true,
                cache := { cachedMetrics.zero with
                  testUUID := "t-1", success := true,
                  latencyData := some (MustNewConstMetric latency ValueType.GaugeValue 23 []),
                  uploadData := some (MustNewConstMetric upload ValueType.GaugeValue 5 []) } } ∧
    Collect { serverID := -1, serverFallback := false, ready := true,
              cache := { cachedMetrics.zero with testUUID := "t-2" } }
      = [MustNewConstMetric up ValueType.GaugeValue 0 ["t-2"]] :=
  ⟨(Collect_emits _).1 rfl,
   ((Collect_emits _).2.1 rfl rfl).1,
   (Collect_emits _).2.2 rfl rfl⟩

/-! ## Refresh -/

/-- When `runSpeedtest` returns an error the out-parameters are untouched;
when it returns `nil` all four hold a gauge of their own descriptor. -/
theorem runSpeedtest_result (e : Exporter) (client : Client) (testUUID : String)
    (out : MetricPtrs) :
    (∃ err, runSpeedtest e client testUUID out = (some err, out)) ∨
    (∃ l j u d, runSpeedtest e client testUUID out =
        (none, { latencyMetric := some l, jitterMetric := some j, uploadMetric := some u,
                 downloadMetric := some d }) ∧
      l.desc = latency ∧ j.desc = jitter ∧ u.desc = upload ∧ d.desc = download) := by
  unfold runSpeedtest
  cases client.FetchUserInfoContext with
  | error err => exact Or.inl ⟨_, rfl⟩
  | ok user =>
    cases client.FetchServerListContext with
    | error err => exact Or.inl ⟨_, rfl⟩
    | ok serverList =>
      dsimp only
      cases selectServer e client.FindServer serverList with
      | error err => exact Or.inl ⟨_, rfl⟩
      | ok selected =>
        dsimp only
        cases client.TestAll selected with
        | error err => exact Or.inl ⟨_, rfl⟩
        | ok server => exact Or.inr ⟨_, _, _, _, rfl, rfl, rfl, rfl, rfl⟩

/-- Every gauge `runSpeedtest` builds has as many label values as its
descriptor has variable labels, so that `MustNewConstMetric` does not panic. -/
theorem runSpeedtest_label_count (e : Exporter) (client : Client) (testUUID : String)
    (out : MetricPtrs) (h : (runSpeedtest e client testUUID out).1 = none) :
    ∀ m, ((runSpeedtest e client testUUID out).2.latencyMetric = some m ∨
          (runSpeedtest e client testUUID out).2.jitterMetric = some m ∨
          (runSpeedtest e client testUUID out).2.uploadMetric = some m ∨
          (runSpeedtest e client testUUID out).2.downloadMetric = some m) →
      m.labelValues.length = m.desc.variableLabels.length := by
  unfold runSpeedtest at h ⊢
  cases h1 : client.FetchUserInfoContext with
  | error err => simp [h1] at h
  | ok user =>
    cases h2 : client.FetchServerListContext with
    | error err => simp [h1, h2] at h
    | ok serverList =>
      cases h3 : selectServer e client.FindServer serverList with
      | error err => simp [h1, h2, h3] at h
      | ok selected =>
        cases h4 : client.TestAll selected with
        | error err => simp [h1, h2, h3, h4] at h
        | ok server =>
          intro m hm
          simp only [h3, h4] at hm
          rcases hm with hm | hm | hm | hm <;>
            · have hm2 := Option.some.inj hm
              rw [← hm2]
              rfl

/-- The error `runSpeedtest` returns is not `nil` exactly when a step fails. -/
theorem runSpeedtest_error_iff (e : Exporter) (cy : Cycle) (out : MetricPtrs) :
    (runSpeedtest e cy.client cy.uuid out).1 ≠ none ↔ CycleFails e cy := by
  unfold runSpeedtest CycleFails
  cases h1 : cy.client.FetchUserInfoContext with
  | error err => simp
  | ok user =>
    cases h2 : cy.client.FetchServerListContext with
    | error err => simp
    | ok serverList =>
      cases h3 : selectServer e cy.client.FindServer serverList with
      | error err => simp [h3]
      | ok selected =>
        cases h4 : cy.client.TestAll selected with
        | error err => simp [h3, h4]
        | ok server => simp [h3, h4]

/-- A `Refresh` that returns an error leaves the exporter as it was. -/
theorem Refresh_error_unchanged (e : Exporter) (cy : Cycle)
    (h : (Refresh e cy).2 ≠ none) : (Refresh e cy).1 = e := by
  unfold Refresh at h ⊢
  rcases runSpeedtest_result e cy.client cy.uuid
      { latencyMetric := none, jitterMetric := none, uploadMetric := none,
        downloadMetric := none } with ⟨err, hr⟩ | ⟨l, j, u, d, hr, -⟩
  · simp only [hr]
  · simp only [hr] at h
    exact absurd rfl h

/-- A `Refresh` that returns `nil` has committed a success snapshot of this
cycle, with all four gauges, and set `ready`. -/
theorem Refresh_ok_commits (e : Exporter) (cy : Cycle)
    (h : (Refresh e cy).2 = none) :
    (Refresh e cy).1.ready = true ∧ (Refresh e cy).1.cache.success = true ∧
    (Refresh e cy).1.cache.testUUID = cy.uuid ∧
    (Refresh e cy).1.cache.duration = cy.elapsed ∧
    (Refresh e cy).1.serverID = e.serverID ∧
    (Refresh e cy).1.serverFallback = e.serverFallback ∧
    ∃ l j u d, (Refresh e cy).1.cache.latencyData = some l ∧
      (Refresh e cy).1.cache.jitterData = some j ∧
      (Refresh e cy).1.cache.uploadData = some u ∧
      (Refresh e cy).1.cache.downloadData = some d ∧
      l.desc = latency ∧ j.desc = jitter ∧ u.desc = upload ∧ d.desc = download := by
  unfold Refresh at h ⊢
  rcases runSpeedtest_result e cy.client cy.uuid
      { latencyMetric := none, jitterMetric := none, uploadMetric := none,
        downloadMetric := none } with ⟨err, hr⟩ | ⟨l, j, u, d, hr, hl, hj, hu, hd⟩
  · simp only [hr] at h
    cases h
  · dsimp only
    rw [hr]
    exact ⟨rfl, rfl, rfl, rfl, rfl, rfl, l, j, u, d, rfl, rfl, rfl, rfl, hl, hj, hu, hd⟩

/-- The error `Refresh` returns is not `nil` exactly when a step of the cycle
fails. -/
theorem Refresh_error_iff (e : Exporter) (cy : Cycle) :
    (Refresh e cy).2 ≠ none ↔ CycleFails e cy := by
  rw [← runSpeedtest_error_iff e cy
      { latencyMetric := none, jitterMetric := none, uploadMetric := none,
        downloadMetric := none }]
  unfold Refresh
  rcases runSpeedtest_result e cy.client cy.uuid
      { latencyMetric := none, jitterMetric := none, uploadMetric := none,
        downloadMetric := none } with ⟨err, hr⟩ | ⟨l, j, u, d, hr, -⟩
  · simp [hr]
  · simp [hr]

/-- `Refresh` never clears `ready`. -/
theorem Refresh_ready_mono (e : Exporter) (cy : Cycle) (h : e.ready = true) :
    (Refresh e cy).1.ready = true := by
  cases hr : (Refresh e cy).2 with
  | none => exact (Refresh_ok_commits e cy hr).1
  | some err =>
    rw [Refresh_error_unchanged e cy (by simp [hr])]
    exact h

/-- C1 on the code, at two failing cycles. A first cycle whose requester-info
fetch fails returns the error and leaves the exporter as `NewExporter` built
it: the test id of the cache is the empty string, not the id of the cycle. A
cycle whose measurement fails after a successful one returns the error and
leaves the exporter as the successful cycle left it: `success` is still true,
the test id is still the earlier one, and `Collect` still reports `up = 1`. -/
theorem Refresh_failure_commits_nothing :
    (Refresh (NewExporter (-1) false).1 userFailCycle).2
      = some "could not fetch user information: context deadline exceeded" ∧
    (Refresh (NewExporter (-1) false).1 userFailCycle).1 = (NewExporter (-1) false).1 ∧
    (Refresh (NewExporter (-1) false).1 userFailCycle).1.cache.testUUID = "" ∧
    ¬ ((Refresh (NewExporter (-1) false).1 userFailCycle).1.cache.testUUID
        = userFailCycle.uuid) ∧
    (Refresh (Refresh (NewExporter (-1) false).1 goodCycle).1 measureFailCycle).1
      = (Refresh (NewExporter (-1) false).1 goodCycle).1 ∧
    (Refresh (Refresh (NewExporter (-1) false).1 goodCycle).1 measureFailCycle).2
      = some "speedtest failed: connection reset" ∧
    (Refresh (Refresh (NewExporter (-1) false).1 goodCycle).1 measureFailCycle).1.cache.success
      = true ∧
    (Refresh (Refresh (NewExporter (-1) false).1 goodCycle).1 measureFailCycle).1.cache.testUUID
      = goodCycle.uuid ∧
    ¬ ((Refresh (Refresh (NewExporter (-1) false).1 goodCycle).1
          measureFailCycle).1.cache.testUUID = measureFailCycle.uuid) ∧
    (Collect (Refresh (Refresh (NewExporter (-1) false).1 goodCycle).1
        measureFailCycle).1).head?
      = some (MustNewConstMetric up ValueType.GaugeValue 1 [goodCycle.uuid]) := by
  refine ⟨rfl, rfl, rfl, ?_, rfl, rfl, rfl, rfl, ?_, rfl⟩
  · decide
  · decide

/-- C2 as stated fails: a first `Refresh` whose requester-info fetch fails
returns an error and leaves `Ready()` false. -/
theorem Ready_after_failed_first_Refresh :
    (Refresh (NewExporter (-1) false).1 userFailCycle).2
      = some "could not fetch user information: context deadline exceeded" ∧
    Ready (Refresh (NewExporter (-1) false).1 userFailCycle).1 = false :=
  ⟨rfl, rfl⟩

/-- C2 (amended): for an exporter freshly built by `NewExporter`, after the
first `Refresh` returns, `Ready()` is true when the call returned `nil` and
false when it returned an error; it is true exactly when no step of the cycle
failed. -/
theorem Ready_after_first_Refresh (serverID : Int) (serverFallback : Bool) (cy : Cycle) :
    ((Refresh (NewExporter serverID serverFallback).1 cy).2 = none →
      Ready (Refresh (NewExporter serverID serverFallback).1 cy).1 = true) ∧
    ((Refresh (NewExporter serverID serverFallback).1 cy).2 ≠ none →
      Ready (Refresh (NewExporter serverID serverFallback).1 cy).1 = false) ∧
    (Ready (Refresh (NewExporter serverID serverFallback).1 cy).1 = true ↔
      ¬ CycleFails (NewExporter serverID serverFallback).1 cy) := by
  have hok : (Refresh (NewExporter serverID serverFallback).1 cy).2 = none →
      Ready (Refresh (NewExporter serverID serverFallback).1 cy).1 = true :=
    fun h => (Refresh_ok_commits _ cy h).1
  have herr : (Refresh (NewExporter serverID serverFallback).1 cy).2 ≠ none →
      Ready (Refresh (NewExporter serverID serverFallback).1 cy).1 = false := by
    intro h
    rw [Refresh_error_unchanged _ cy h]
    rfl
  refine ⟨hok, herr, ?_⟩
  rw [← Refresh_error_iff]
  constructor
  · intro hready hne
    rw [herr hne] at hready
    cases hready
  · intro h
    exact hok (not_not.mp h)

/-- C2 (amended) at a first cycle in which every step succeeds, and at one
whose measurement fails. -/
theorem Ready_after_first_Refresh_witness :
    Ready (Refresh (NewExporter (-1) false).1 goodCycle).1 = true ∧
    Ready (Refresh (NewExporter 9 true).1 measureFailCycle).1 = false :=
  ⟨(Ready_after_first_Refresh (-1) false goodCycle).1 rfl,
   (Ready_after_first_Refresh 9 true measureFailCycle).2.1 (by
      intro h
      have h2 : (Refresh (NewExporter 9 true).1 measureFailCycle).2
          = some "speedtest failed: connection reset" := rfl
      rw [h2] at h
      cases h)⟩

/-- C8: the ready flag is a sticky latch. It is false on the exporter
`NewExporter` returns; once `Ready()` is true it is still true after any
operation (`Refresh` returning `nil` or an error, `Collect`, `Describe`,
`Ready`), and after any finite sequence of operations. -/
theorem Ready_sticky :
    (∀ serverID serverFallback, Ready (NewExporter serverID serverFallback).1 = false) ∧
    (∀ e op, Ready e = true → Ready (applyOp e op) = true) ∧
    (∀ ops e, Ready e = true → Ready (List.foldl applyOp e ops) = true) := by
  have hstep : ∀ e op, Ready e = true → Ready (applyOp e op) = true := by
    intro e op h
    cases op with
    | refresh cy => exact Refresh_ready_mono e cy h
    | collect => exact h
    | describe => exact h
    | ready => exact h
  refine ⟨fun _ _ => rfl, hstep, ?_⟩
  intro ops
  induction ops with
  | nil => intro e h; exact h
  | cons op rest ih => intro e h; exact ih (applyOp e op) (hstep e op h)

/-- C8 on a run: not ready at first, ready after a successful cycle, and
still ready after a failing cycle, a `Collect`, a `Describe` and a `Ready`. -/
theorem Ready_sticky_witness :
    Ready (NewExporter 9 true).1 = false ∧
    Ready (List.foldl applyOp (Refresh (NewExporter 9 true).1 goodCycle).1
      [Op.refresh userFailCycle, Op.collect, Op.refresh measureFailCycle, Op.describe,
       Op.ready]) = true :=
  ⟨Ready_sticky.1 9 true, Ready_sticky.2.2 _ _ rfl⟩

/-! ## Reachable states -/

/-- In every reachable state, a ready exporter holds a complete cache. -/
theorem Reachable_ready_complete (e : Exporter) (h : Reachable e) :
    e.ready = true → CacheComplete e.cache := by
  induction h with
  | init serverID serverFallback =>
    intro hr
    cases hr
  | refresh e cy _ ih =>
    cases hres : (Refresh e cy).2 with
    | none =>
      intro _
      obtain ⟨-, hs, -, -, -, -, l, j, u, d, h1, h2, h3, h4, h5, h6, h7, h8⟩ :=
        Refresh_ok_commits e cy hres
      exact ⟨hs, l, j, u, d, h1, h2, h3, h4, h5, h6, h7, h8⟩
    | some err =>
      rw [Refresh_error_unchanged e cy (by simp [hres])]
      exact ih

/-- What `Collect` emits from a ready exporter with a complete cache. -/
theorem Collect_complete (e : Exporter) (hr : e.ready = true) (l j u d : Metric)
    (hs : e.cache.success = true) (h1 : e.cache.latencyData = some l)
    (h2 : e.cache.jitterData = some j) (h3 : e.cache.uploadData = some u)
    (h4 : e.cache.downloadData = some d) :
    Collect e =
      [MustNewConstMetric up ValueType.GaugeValue 1 [e.cache.testUUID],
       MustNewConstMetric scrapeDurationSeconds ValueType.GaugeValue e.cache.duration
         [e.cache.testUUID], l, j, u, d] := by
  simp [Collect, hr, hs, h1, h2, h3, h4]

/-- C10: in every state reachable from `NewExporter` by `Refresh` calls,
`Ready()` implies that `cache.success` is true and that the four cached
metric pointers are non-nil; `Collect` emits either nothing or exactly six
metrics, the first being the gauge `up = 1`, and every emitted metric of
descriptor `up` has the value 1; the `up = 0` branch of `Collect` (ready and
not success) is never taken. -/
theorem Reachable_invariant (e : Exporter) (h : Reachable e) :
    (Ready e = true →
      e.cache.success = true ∧ e.cache.latencyData ≠ none ∧ e.cache.jitterData ≠ none ∧
      e.cache.uploadData ≠ none ∧ e.cache.downloadData ≠ none) ∧
    (Collect e = [] ∨
      ((Collect e).length = 6 ∧
       (Collect e).head? = some (MustNewConstMetric up ValueType.GaugeValue 1
          [e.cache.testUUID]) ∧
       ∀ m ∈ Collect e, m.desc = up → m.value = 1)) ∧
    ¬ (e.ready = true ∧ e.cache.success = false) := by
  have hinv := Reachable_ready_complete e h
  refine ⟨?_, ?_, ?_⟩
  · intro hr
    obtain ⟨hs, l, j, u, d, h1, h2, h3, h4, -⟩ := hinv hr
    simp [hs, h1, h2, h3, h4]
  · cases hr : e.ready with
    | false =>
      left
      simp [Collect, hr]
    | true =>
      right
      obtain ⟨hs, l, j, u, d, h1, h2, h3, h4, d1, d2, d3, d4⟩ := hinv hr
      rw [Collect_complete e hr l j u d hs h1 h2 h3 h4]
      refine ⟨rfl, rfl, ?_⟩
      intro m hm hdesc
      simp only [List.mem_cons, List.mem_singleton, List.not_mem_nil, or_false] at hm
      rcases hm with hm | hm | hm | hm | hm | hm
      · rw [hm]
        rfl
      · rw [hm] at hdesc
        exact absurd hdesc up_ne_scrapeDurationSeconds
      · rw [hm, d1] at hdesc
        exact absurd hdesc (by decide)
      · rw [hm, d2] at hdesc
        exact absurd hdesc (by decide)
      · rw [hm, d3] at hdesc
        exact absurd hdesc (by decide)
      · rw [hm, d4] at hdesc
        exact absurd hdesc (by decide)
  · rintro ⟨hr, hs⟩
    have := (hinv hr).1
    rw [hs] at this
    cases this

/-- C10 at the state reached by a failing cycle, a successful one and a
failing one: the exporter is ready, holds a success, and the `up = 0` branch
is not taken. -/
theorem Reachable_invariant_witness :
    Ready sampleRun = true ∧
    (sampleRun.cache.success = true ∧ sampleRun.cache.latencyData ≠ none ∧
      sampleRun.cache.jitterData ≠ none ∧ sampleRun.cache.uploadData ≠ none ∧
      sampleRun.cache.downloadData ≠ none) ∧
    ¬ (sampleRun.ready = true ∧ sampleRun.cache.success = false) :=
  ⟨rfl,
   (Reachable_invariant sampleRun
      (Reachable.refresh _ measureFailCycle
        (Reachable.refresh _ goodCycle
          (Reachable.refresh _ userFailCycle (Reachable.init 9 true))))).1 rfl,
   (Reachable_invariant sampleRun
      (Reachable.refresh _ measureFailCycle
        (Reachable.refresh _ goodCycle
          (Reachable.refresh _ userFailCycle (Reachable.init 9 true))))).2.2⟩

end SpeedtestExporter
